import Mathlib

/-!
Verification development for `entt::Delegate<Ret(Args...)>`
(`src/entt/signal/delegate.hpp`).

The delegate holds a single data member
`stub_type stub{}` with `stub_type = std::pair<const void *, proto_fn_type *>`
and `proto_fn_type = Ret(const void *, Args...)`:

* `stub.first` is a type-erased, non-owning context pointer (`nullptr` for a
  free-function binding, the instance pointer for a member-function binding);
* `stub.second` points to one instantiation of the private static template
  `proto<Class, Function>`, the trampoline that reinterprets the context and
  performs the actual call; it is null exactly when the delegate is unbound.

The model below embeds this state and the five operations `empty`, the two
`connect` forms, `reset`, `operator()` and `operator==`.  Pointers are modelled
as `Option Nat` (`none` is `nullptr`); a trampoline pointer is modelled by the
identity of the `proto` instantiation it addresses, since distinct template
instantiations are distinct functions with distinct addresses and the same
instantiation always has the same address.

Several statements of the header are ill-formed C++ and are rejected by a
conforming compiler (checked with GCC 12, `-std=c++17`):

* `connect()` (free functions) does `stub = std::make_pair(nullptr,
  &proto<Function>);` — it passes the non-type template argument `Function`
  where `proto` declares the type parameter `typename Class`, so no free
  function can be connected at all;
* the member branch of `proto` does `static_cast<Class *>(instance)` on a
  `const void *`, casting away qualifiers, so `connect(instance)` only
  compiles when `Class` is deduced const-qualified (a pointer-to-const
  instance with a const member function);
* `reset()` does `stub.second = proto_fn_type{};`, value-initializing the
  function type `Ret(const void *, Args...)` itself rather than a pointer to
  it, which is ill-formed for every instantiation.

Where an operation's dynamic meaning is nevertheless evident from the
assignment it performs (which fields are written, with which values), the
model gives that evident meaning; the doc comment of each such definition
records the defect.  The theorems note, claim by claim, which statements hold
of the well-formed parts of the code and which only hold of the evident
intent.
-/

namespace Entt

/-- Addresses of C++ objects.  A raw pointer such as `const void *` is an
`Option Addr`, with `none` standing for `nullptr`. -/
abbrev Addr := Nat

/-- Identity of one instantiation of the private static template
`proto<Class, Function>`.  A binding to a free function uses the branch of
`proto` that calls `(Function)(args...)` and is keyed by the free function
alone; a binding to a member function uses the branch that casts the context
to `Class *` and calls `(ptr->*Function)(args...)`, keyed by the class and the
member.  Free functions, classes and members are named by numeric identifiers
standing for their link-time identities: two `proto_fn_type *` values compare
equal exactly when they address the same instantiation. -/
inductive Trampoline where
  | free (fid : Nat)
  | member (cls : Nat) (mid : Nat)
deriving DecidableEq

/-- State of a `Delegate<Ret(Args...)>`: the single data member
`stub_type stub{}`.  Component `stub.1` is the `const void *` context and
`stub.2` the `proto_fn_type *` trampoline pointer (`none` is null). -/
structure Delegate where
  stub : Option Addr × Option Trampoline
deriving DecidableEq

/-- A default-constructed delegate: the member initializer `stub_type stub{}`
value-initializes the pair, so both pointers are null. -/
def Delegate.default : Delegate :=
  ⟨(none, none)⟩

/-- Operation `empty()`: `return !stub.second;` — it reads `stub.second` only
(the source comments "no need to test also stub.first"). -/
def Delegate.empty (d : Delegate) : Bool :=
  d.stub.2.isNone

/-- Operation `connect<Function>()` for a free function:
`stub = std::make_pair(nullptr, &proto<Function>);`.  As written the line is
ill-formed C++ — `Function` is a non-type argument supplied for the type
parameter `typename Class` of `proto` — so this overwrite is modelled from the
assignment's evident meaning: context `nullptr`, trampoline the free-branch
instantiation of `proto` keyed by `Function`.  The whole pair is overwritten,
whatever the previous binding was. -/
def Delegate.connectFree (fid : Nat) (_d : Delegate) : Delegate :=
  ⟨(none, some (Trampoline.free fid))⟩

/-- Operation `connect<Member>(instance)` for a member function:
`stub = std::make_pair(instance, &proto<Class, Member>);`.  The whole pair is
overwritten: context the instance pointer (the parameter is a raw `Class *`,
so `none` can be passed), trampoline the member-branch instantiation of
`proto` keyed by `Class` and `Member`.  The member branch of `proto` is
ill-formed when `Class` is not const-qualified (its `static_cast` drops the
`const` of `const void *`); for the instantiations that do compile this is
exactly the state written. -/
def Delegate.connectMember (cls mid : Nat) (obj : Option Addr) (_d : Delegate) : Delegate :=
  ⟨(obj, some (Trampoline.member cls mid))⟩

/-- Operation `reset()`: `stub.second = proto_fn_type{};` — an assignment to
`stub.second` alone, leaving `stub.first` untouched.  As written the
right-hand side is ill-formed C++ for every instantiation (`proto_fn_type` is
the function type `Ret(const void *, Args...)` and a function type cannot be
value-initialized; GCC 12: "compound literal of non-object type"), so this
transition is modelled from the assignment's evident meaning: the null
trampoline. -/
def Delegate.reset (d : Delegate) : Delegate :=
  ⟨(d.stub.1, none)⟩

/-- Link-time environment giving the behaviour of the functions the numeric
identifiers name: `freeSem f a` is what free function `f` returns on the
argument tuple `a`, and `memSem c m p a` is what member `m` of class `c`
returns when invoked on the object at address `p` with arguments `a` (the
object's state is part of the environment).  `α` is the tuple of argument
types `Args...`, `ρ` the return type `Ret`. -/
structure Env (α ρ : Type) where
  freeSem : Nat → α → ρ
  memSem : Nat → Nat → Addr → α → ρ

/-- Body of the `proto<Class, Function>` instantiation a trampoline pointer
addresses, applied to the stored context and the call arguments.  The free
branch ignores the context and returns `(Function)(args...)` unchanged; the
member branch casts the context to `Class *` and returns
`(ptr->*Function)(args...)`, so a null context dereferences a null pointer:
undefined behaviour, modelled as `none`. -/
def Trampoline.invoke {α ρ : Type} (env : Env α ρ) (ctx : Option Addr) (a : α) :
    Trampoline → Option ρ
  | Trampoline.free fid => some (env.freeSem fid a)
  | Trampoline.member cls mid =>
      match ctx with
      | none => none
      | some p => some (env.memSem cls mid p a)

/-- Operation `operator()(args...)`: `return stub.second(stub.first, args...);`.
The body performs no emptiness check in any build — no assertion precedes the
indirect call — so on an empty delegate it calls a null function pointer:
undefined behaviour, modelled as `none`. -/
def Delegate.call {α ρ : Type} (env : Env α ρ) (d : Delegate) (a : α) : Option ρ :=
  match d.stub.2 with
  | none => none
  | some t => t.invoke env d.stub.1 a

/-- Operation `operator==`:
`return stub.first == other.stub.first && stub.second == other.stub.second;` —
pointer comparison of both components, nothing else. -/
def Delegate.eqOp (d other : Delegate) : Bool :=
  decide (d.stub.1 = other.stub.1) && decide (d.stub.2 = other.stub.2)

/-- One mutating API call on a delegate, for reasoning about call histories. -/
inductive Op where
  | connectFree (fid : Nat)
  | connectMember (cls : Nat) (mid : Nat) (obj : Option Addr)
  | reset

/-- Application of one API call to the delegate state. -/
def Delegate.applyOp (d : Delegate) : Op → Delegate
  | Op.connectFree fid => d.connectFree fid
  | Op.connectMember cls mid obj => d.connectMember cls mid obj
  | Op.reset => d.reset

/-- A delegate driven through a sequence of API calls. -/
def Delegate.run (d : Delegate) (ops : List Op) : Delegate :=
  ops.foldl Delegate.applyOp d

/-- Emptiness as the spec words it, computed from the call history alone:
starting from a delegate whose emptiness is `e`, the delegate is empty at the
end of the history exactly when no `connect` has happened since the most
recent `reset`, or ever. -/
def emptyAfter (e : Bool) : List Op → Bool
  | [] => e
  | Op.reset :: rest => emptyAfter true rest
  | Op.connectFree _ :: rest => emptyAfter false rest
  | Op.connectMember _ _ _ :: rest => emptyAfter false rest

theorem run_empty_eq_emptyAfter (ops : List Op) (d : Delegate) :
    (Delegate.run d ops).empty = emptyAfter d.empty ops := by
  induction ops generalizing d with
  | nil => rfl
  | cons o rest ih =>
      cases o with
      | connectFree fid => exact ih (d.connectFree fid)
      | connectMember cls mid obj => exact ih (d.connectMember cls mid obj)
      | reset => exact ih d.reset

/-- C1: after binding a free function, invoking the delegate returns exactly
what that function returns on the forwarded arguments, with no value
transformation.  This is the evident meaning of the free `connect` overwrite
together with the free branch of `proto`, `return (Function)(args...)`; the
overwrite as written in the source is ill-formed C++ (see `connectFree`), so
this theorem records the intended dispatch, not behaviour of a compilable
program. -/
theorem connectFree_call_returns_fn {α ρ : Type} (env : Env α ρ) (fid : Nat)
    (d : Delegate) (a : α) :
    Delegate.call env (d.connectFree fid) a = some (env.freeSem fid a) := rfl

/-- C2: after binding member `mid` of class `cls` with a non-null instance at
address `p`, invoking the delegate returns exactly what the member returns
when invoked on that instance with the forwarded arguments.  This is the
member branch of `proto`, `return (static_cast<Class *>(instance)->*Function)(args...)`;
that branch only compiles for const-qualified `Class` (its `static_cast`
drops the `const` of `const void *` otherwise), so for non-const instances
this theorem records the intended dispatch, not behaviour of a compilable
program. -/
theorem connectMember_call_invokes_member {α ρ : Type} (env : Env α ρ)
    (cls mid : Nat) (p : Addr) (d : Delegate) (a : α) :
    Delegate.call env (d.connectMember cls mid (some p)) a =
      some (env.memSem cls mid p a) := rfl

/-- C3: invoking an empty delegate performs no check at all — `operator()`
immediately executes `stub.second(stub.first, args...)`, calling a null
function pointer (undefined behaviour, modelled `none`).  No assertion guards
the call in any build, although the function's own `@warning` comment promises
one in debug mode; the outcome is never converted into a default-valued
return of `ρ`, a no-op, or an error value. -/
theorem empty_call_has_no_guard {α ρ : Type} (env : Env α ρ) (d : Delegate)
    (a : α) (h : d.empty = true) :
    Delegate.call env d a = none := by
  unfold Delegate.call
  unfold Delegate.empty at h
  cases hs : d.stub.2 with
  | none => rfl
  | some t => rw [hs] at h; simp [Option.isNone] at h

theorem empty_call_has_no_guard_witness :
    Delegate.default.empty = true ∧
      Delegate.call ⟨fun _ _ => 0, fun _ _ _ _ => 0⟩ Delegate.default (5 : Nat) =
        (none : Option Nat) :=
  ⟨rfl, empty_call_has_no_guard ⟨fun _ _ => 0, fun _ _ _ _ => 0⟩ Delegate.default 5 rfl⟩

/-- C4: `empty()` is determined solely by the trampoline component
`stub.second`, and over any history of API calls started from any state, the
delegate is empty exactly when no `connect` has happened since the most recent
`reset` (or, if the start state is empty, ever).  The `connect` and `reset`
transitions used here are the evident meanings of overwrites that are
ill-formed C++ as written (see `connectFree` and `reset`), so this theorem
records the intended lifecycle, not behaviour of a compilable program. -/
theorem empty_iff_never_bound_since_reset :
    (∀ d : Delegate, d.empty = d.stub.2.isNone) ∧
      ∀ (ops : List Op) (d : Delegate),
        (Delegate.run d ops).empty = emptyAfter d.empty ops :=
  ⟨fun _ => rfl, run_empty_eq_emptyAfter⟩

/-- C5: a default-constructed delegate is empty — `stub_type stub{}`
value-initializes both pointers to null and `empty()` reports the null
trampoline. -/
theorem default_delegate_empty : Delegate.default.empty = true := rfl

/-- C6: `operator==` returns true exactly when the two stored context pointers
compare equal and the two stored trampoline pointers compare equal; in
particular two delegates bound to distinct free functions compare unequal
however the bound functions behave, since the comparison never consults any
behaviour (no `Env` occurs in `eqOp`): equality is identity of the binding. -/
theorem eqOp_iff_pointer_pair_eq :
    (∀ d other : Delegate,
        Delegate.eqOp d other = true ↔
          d.stub.1 = other.stub.1 ∧ d.stub.2 = other.stub.2) ∧
      ∀ (fid gid : Nat) (d₁ d₂ : Delegate), fid ≠ gid →
        Delegate.eqOp (d₁.connectFree fid) (d₂.connectFree gid) = false := by
  constructor
  · intro d other
    simp [Delegate.eqOp]
  · intro fid gid d₁ d₂ h
    simp [Delegate.eqOp, Delegate.connectFree, h]

theorem eqOp_iff_pointer_pair_eq_witness :
    (Delegate.eqOp Delegate.default Delegate.default = true ↔
        Delegate.default.stub.1 = Delegate.default.stub.1 ∧
          Delegate.default.stub.2 = Delegate.default.stub.2) ∧
      Delegate.eqOp (Delegate.connectFree 0 Delegate.default)
          (Delegate.connectFree 1 Delegate.default) = false :=
  ⟨eqOp_iff_pointer_pair_eq.1 Delegate.default Delegate.default,
    eqOp_iff_pointer_pair_eq.2 0 1 Delegate.default Delegate.default (by decide)⟩

/-- C7: either form of `connect` overwrites the whole `stub` pair, so the
state after re-connecting — and with it every subsequent invocation and
comparison — is a function of the new target alone; no trace of any prior
binding remains and no intervening `reset` is required.  The `connect`
transitions used here are the evident meanings of overwrites that are
ill-formed C++ as written (see `connectFree` and `connectMember`), so this
theorem records the intended replacement, not behaviour of a compilable
program. -/
theorem reconnect_fully_replaces :
    (∀ (fid : Nat) (d₁ d₂ : Delegate),
        d₁.connectFree fid = d₂.connectFree fid) ∧
      ∀ (cls mid : Nat) (obj : Option Addr) (d₁ d₂ : Delegate),
        d₁.connectMember cls mid obj = d₂.connectMember cls mid obj :=
  ⟨fun _ _ _ => rfl, fun _ _ _ _ _ => rfl⟩

/-- C8: any two delegates bound to the same free function hold the same pair
(null context, address of the same `proto` instantiation) and so compare
equal; a delegate bound to a free function never compares equal to one bound
to a member function on a non-null instance, since both components differ
(null vs non-null context, distinct `proto` instantiations).  Free-function
binding is ill-formed C++ as written (see `connectFree`), so this theorem
records the intended comparison, not behaviour of a compilable program. -/
theorem free_bindings_eq_and_ne_member :
    (∀ (fid : Nat) (d₁ d₂ : Delegate),
        Delegate.eqOp (d₁.connectFree fid) (d₂.connectFree fid) = true) ∧
      ∀ (fid cls mid : Nat) (p : Addr) (d₁ d₂ : Delegate),
        Delegate.eqOp (d₁.connectFree fid) (d₂.connectMember cls mid (some p)) = false := by
  constructor
  · intro fid d₁ d₂
    simp [Delegate.eqOp, Delegate.connectFree]
  · intro fid cls mid p d₁ d₂
    simp [Delegate.eqOp, Delegate.connectFree, Delegate.connectMember]

/-- C9: two delegates bound to the same member function of the same class but
to instances at distinct addresses store equal trampoline pointers but unequal
context pointers, so `operator==` returns false. -/
theorem member_bindings_distinct_instances_ne (cls mid : Nat) (p q : Addr)
    (d₁ d₂ : Delegate) (h : p ≠ q) :
    Delegate.eqOp (d₁.connectMember cls mid (some p))
      (d₂.connectMember cls mid (some q)) = false := by
  simp [Delegate.eqOp, Delegate.connectMember, h]

theorem member_bindings_distinct_instances_ne_witness :
    (1 : Addr) ≠ 2 ∧
      Delegate.eqOp (Delegate.connectMember 0 0 (some 1) Delegate.default)
        (Delegate.connectMember 0 0 (some 2) Delegate.default) = false :=
  ⟨by decide,
    member_bindings_distinct_instances_ne 0 0 1 2 Delegate.default Delegate.default
      (by decide)⟩

/-- C10: `reset()` writes only the trampoline component, leaving the context
component exactly as it was; consequently a delegate reset after a member
binding on the instance at address 7 still holds that stale context, is empty,
and compares unequal to an equally empty default-constructed delegate.  The
`reset` transition used here is the evident meaning of an assignment that is
ill-formed C++ as written (see `reset`), so this theorem records the intended
frame effect, not behaviour of a compilable program. -/
theorem reset_preserves_context_frame :
    (∀ d : Delegate, d.reset.stub.1 = d.stub.1 ∧ d.reset.stub.2 = none) ∧
      (Delegate.connectMember 0 0 (some 7) Delegate.default).reset.stub.1 = some 7 ∧
      (Delegate.connectMember 0 0 (some 7) Delegate.default).reset.empty = true ∧
      Delegate.default.empty = true ∧
      Delegate.eqOp ((Delegate.connectMember 0 0 (some 7) Delegate.default).reset)
        Delegate.default = false :=
  ⟨fun _ => ⟨rfl, rfl⟩, rfl, rfl, rfl, by decide⟩

end Entt
